import Mathlib

/-!
Shallow embedding of the MSK MirrorMaker2 / Route53 MCP servers
(`src/msk_mm2_mcp_server/server.py` and `src/msk_custom_domain/server.py`)
and proofs about the resource-state orchestration engine: the generic
state poller, the authentication-configuration builder, the
complete-setup pipeline, the connector-description renderer, and the
DR topology switch.

Python-to-Lean conventions used throughout:
* Python `Optional[str]` becomes `Option String`; Python truthiness of an
  optional string (`not x` catches both `None` and `""`) is `optBlank`.
* Python `needle in hay` (substring test) is `containsSub hay needle`.
* Python `str.lower()` (ASCII-lowercasing of the inputs that occur here)
  is `strLower`.
* Python dicts built by literal/`update` with string keys become
  association lists `List (String × String)` in insertion order.
* A Python function that can raise becomes `Except String α`; the
  `.error` channel is an exception propagating to the caller.
-/

set_option maxRecDepth 8192

/-- Models the Python substring test `needle in hay`. -/
def containsSub (hay needle : String) : Bool :=
  decide (needle.data <:+: hay.data)

/-- Models Python `str.lower()` for the strings handled by this program
(mechanism selectors and configuration keys, all basic-latin). -/
def strLower (s : String) : String :=
  ⟨s.data.map Char.toLower⟩

/-- Python truthiness test `not x` for an `Optional[str]` value: `None`
and the empty string are both falsy. -/
def optBlank : Option String → Bool
  | none => true
  | some s => s == ""

/-! ### State poller: `wait_for_resource_state` (server.py lines 136-196)

The check function is modelled as a stream `check : Nat → CheckResult`
giving the result of the n-th invocation of `check_function` (a raised
exception is `CheckResult.exn`).  Wall-clock time is modelled by the
elapsed-seconds counter: the n-th loop iteration starts at elapsed time
`n * check_interval` (the check itself is instantaneous and each
`time.sleep(check_interval)` advances time by `check_interval`), and the
`while time.time() - start_time < max_wait_seconds` guard is the test
`elapsed < max_wait_seconds`.  The structural `fuel` argument only bounds
the recursion: it is started at `max_wait_seconds + 1`, and with
`1 ≤ check_interval` (every call site uses 15 or 30) the guard always
fails before the fuel does, with the same TIMEOUT result either way.
The function returns the poll outcome paired with the number of
invocations of the check function. -/

inductive CheckResult where
  | ok (state : String)
  | exn (msg : String)
deriving DecidableEq

structure PollOutcome where
  success : Bool
  state : String
  message : String
deriving DecidableEq

/-- The timeout outcome of `wait_for_resource_state`. -/
def timeoutOutcome (resource_name : String) (max_wait_seconds : Nat) : PollOutcome :=
  { success := false
    state := "TIMEOUT"
    message := resource_name ++ " did not reach target state within "
      ++ toString max_wait_seconds ++ " seconds" }

/-- The polling loop of `wait_for_resource_state`: arguments `fuel`,
poll index `k`, and elapsed seconds. -/
def waitLoop (check : Nat → CheckResult) (target_states failure_states : List String)
    (max_wait_seconds check_interval : Nat) (resource_name : String) :
    Nat → Nat → Nat → PollOutcome × Nat
  | 0, k, _ => (timeoutOutcome resource_name max_wait_seconds, k)
  | fuel + 1, k, elapsed =>
    if elapsed < max_wait_seconds then
      match check k with
      | .exn e =>
        ({ success := false
           state := "ERROR"
           message := "Error checking " ++ resource_name ++ " state: " ++ e }, k + 1)
      | .ok current_state =>
        if current_state ∈ target_states then
          ({ success := true
             state := current_state
             message := resource_name ++ " successfully reached target state: "
               ++ current_state }, k + 1)
        else if current_state ∈ failure_states then
          ({ success := false
             state := current_state
             message := resource_name ++ " failed with state: " ++ current_state }, k + 1)
        else
          waitLoop check target_states failure_states max_wait_seconds check_interval
            resource_name fuel (k + 1) (elapsed + check_interval)
    else
      (timeoutOutcome resource_name max_wait_seconds, k)

/-- `wait_for_resource_state` from server.py, returning the poll outcome
and the number of check invocations. -/
def wait_for_resource_state (check : Nat → CheckResult)
    (target_states failure_states : List String)
    (max_wait_seconds check_interval : Nat) (resource_name : String) :
    PollOutcome × Nat :=
  waitLoop check target_states failure_states max_wait_seconds check_interval
    resource_name (max_wait_seconds + 1) 0 0

/-! ### Authentication configuration builder:
`generate_cluster_auth_config` (server.py lines 198-280) -/

/-- The IAM JAAS configuration value, with `role_arn` interpolated. -/
def iamJaas (role_arn : String) : String :=
  "software.amazon.msk.auth.iam.IAMLoginModule required awsRoleArn=\""
    ++ role_arn ++ "\" awsDebugCreds=true;"

/-- The key/value pairs emitted for IAM authentication. -/
def iamConfig (cluster_alias role_arn : String) : List (String × String) :=
  [ (cluster_alias ++ ".cluster.security.protocol", "SASL_SSL"),
    (cluster_alias ++ ".cluster.producer.security.protocol", "SASL_SSL"),
    (cluster_alias ++ ".cluster.consumer.security.protocol", "SASL_SSL"),
    (cluster_alias ++ ".cluster.sasl.mechanism", "AWS_MSK_IAM"),
    (cluster_alias ++ ".cluster.producer.sasl.mechanism", "AWS_MSK_IAM"),
    (cluster_alias ++ ".cluster.consumer.sasl.mechanism", "AWS_MSK_IAM"),
    (cluster_alias ++ ".cluster.sasl.jaas.config", iamJaas role_arn),
    (cluster_alias ++ ".cluster.producer.sasl.jaas.config", iamJaas role_arn),
    (cluster_alias ++ ".cluster.consumer.sasl.jaas.config", iamJaas role_arn),
    (cluster_alias ++ ".cluster.sasl.client.callback.handler.class",
      "software.amazon.msk.auth.iam.IAMClientCallbackHandler"),
    (cluster_alias ++ ".cluster.producer.sasl.client.callback.handler.class",
      "software.amazon.msk.auth.iam.IAMClientCallbackHandler"),
    (cluster_alias ++ ".cluster.consumer.sasl.client.callback.handler.class",
      "software.amazon.msk.auth.iam.IAMClientCallbackHandler") ]

/-- The key/value pairs emitted for PLAINTEXT. -/
def plaintextConfig (cluster_alias : String) : List (String × String) :=
  [ (cluster_alias ++ ".cluster.security.protocol", "PLAINTEXT"),
    (cluster_alias ++ ".cluster.producer.security.protocol", "PLAINTEXT"),
    (cluster_alias ++ ".cluster.consumer.security.protocol", "PLAINTEXT") ]

/-- The fixed pieces of the SCRAM JAAS configuration string. -/
def scramJaasPre : String :=
  "org.apache.kafka.common.security.scram.ScramLoginModule required username=\""

def scramJaasMid : String := "\" password=\""

def scramJaasPost : String := "\";"

/-- The SCRAM JAAS configuration value, with `username` and `password`
interpolated verbatim. -/
def scramJaas (username password : String) : String :=
  scramJaasPre ++ username ++ scramJaasMid ++ password ++ scramJaasPost

/-- The key/value pairs emitted for SCRAM-SHA-512 authentication. -/
def scramConfig (cluster_alias username password : String) : List (String × String) :=
  [ (cluster_alias ++ ".cluster.security.protocol", "SASL_SSL"),
    (cluster_alias ++ ".cluster.producer.security.protocol", "SASL_SSL"),
    (cluster_alias ++ ".cluster.consumer.security.protocol", "SASL_SSL"),
    (cluster_alias ++ ".cluster.sasl.mechanism", "SCRAM-SHA-512"),
    (cluster_alias ++ ".cluster.producer.sasl.mechanism", "SCRAM-SHA-512"),
    (cluster_alias ++ ".cluster.consumer.sasl.mechanism", "SCRAM-SHA-512"),
    (cluster_alias ++ ".cluster.sasl.jaas.config", scramJaas username password),
    (cluster_alias ++ ".cluster.producer.sasl.jaas.config", scramJaas username password),
    (cluster_alias ++ ".cluster.consumer.sasl.jaas.config", scramJaas username password) ]

/-- `generate_cluster_auth_config` from server.py.  A raised
`ValueError` is the `.error` channel. -/
def generate_cluster_auth_config (cluster_alias auth_type : String)
    (role_arn username password : Option String) :
    Except String (List (String × String)) :=
  if strLower auth_type = "iam" then
    if optBlank role_arn then
      .error ("IAM role ARN is required for IAM authentication on "
        ++ cluster_alias ++ " cluster")
    else
      .ok (iamConfig cluster_alias (role_arn.getD ""))
  else if strLower auth_type = "plaintext" then
    .ok (plaintextConfig cluster_alias)
  else if strLower auth_type = "scram" then
    if optBlank username || optBlank password then
      .error ("Username and password are required for SCRAM authentication on "
        ++ cluster_alias ++ " cluster")
    else
      .ok (scramConfig cluster_alias (username.getD "") (password.getD ""))
  else
    .error ("Unsupported authentication type: " ++ auth_type
      ++ ". Supported types: iam, plaintext, scram")

/-! ### Complete-setup orchestrator: `create_complete_mm2_setup`
(server.py lines 2081-2198, step-sequencing body lines 2114-2195)

The five external step operations (plugin creation, plugin-readiness
wait, and the three connector creations) are modelled by the result
strings they would return if invoked; the `SetupTrace` records which of
them the orchestrator actually invokes, together with the accumulated
`results` list that the source finally joins with `"\n"`. -/

/-- Drops everything up to and including the first occurrence of `sep`
in `l`, or `none` when `sep` does not occur (`sep` is nonempty here). -/
def afterSub (sep : List Char) : List Char → Option (List Char)
  | [] => none
  | c :: rest =>
    if sep.isPrefixOf (c :: rest) then some ((c :: rest).drop sep.length)
    else afterSub sep rest

/-- The longest prefix of `l` that precedes the first occurrence of
`sep` (all of `l` when `sep` does not occur). -/
def takeBefore (sep : List Char) : List Char → List Char
  | [] => []
  | c :: rest =>
    if sep.isPrefixOf (c :: rest) then []
    else c :: takeBefore sep rest

/-- Models `plugin_result.split("ARN: ")[1].split(",")[0]`:
`none` is the `IndexError` raised when `"ARN: "` does not occur in the
result string; otherwise the extracted segment (the text between the
first `"ARN: "` and the following `"ARN: "` or end of string, cut at
its first comma). -/
def extract_plugin_arn (plugin_result : String) : Option String :=
  match afterSub "ARN: ".data plugin_result.data with
  | none => none
  | some rest => some ⟨takeBefore ",".data (takeBefore "ARN: ".data rest)⟩

structure SetupTrace where
  results : List String
  pluginInvoked : Bool
  waitInvoked : Bool
  heartbeatInvoked : Bool
  checkpointInvoked : Bool
  sourceInvoked : Bool
deriving DecidableEq

/-- The step-sequencing body of `create_complete_mm2_setup`.  Arguments
are the result strings of the five step operations (each used only if
the orchestrator reaches that step). -/
def create_complete_mm2_setup
    (plugin_result wait_result heartbeat_result checkpoint_result source_result : String) :
    SetupTrace :=
  let results := ["Step 1: Creating custom plugin...", plugin_result]
  if containsSub plugin_result "Failed" then
    { results := results
      pluginInvoked := true, waitInvoked := false
      heartbeatInvoked := false, checkpointInvoked := false, sourceInvoked := false }
  else
    match extract_plugin_arn plugin_result with
    | none =>
      { results := results ++ ["Error: Unable to extract ARN from plugin creation result"]
        pluginInvoked := true, waitInvoked := false
        heartbeatInvoked := false, checkpointInvoked := false, sourceInvoked := false }
    | some _plugin_arn =>
      let results := results ++ ["\nStep 2: Waiting for plugin to be ready...", wait_result]
      if containsSub wait_result "❌" then
        { results := results
          pluginInvoked := true, waitInvoked := true
          heartbeatInvoked := false, checkpointInvoked := false, sourceInvoked := false }
      else
        { results := results ++
            ["\nStep 3: Creating MirrorHeartbeatConnector...", heartbeat_result,
             "\nStep 4: Creating MirrorCheckpointConnector...", checkpoint_result,
             "\nStep 5: Creating MirrorSourceConnector...", source_result,
             "\n✅ MirrorMaker2 complete setup creation finished!",
             "\nRecommended verification steps:",
             "1. Use check_connector_status to verify all component states",
             "2. Verify heartbeat topic creation",
             "3. Check if data replication is working properly"]
          pluginInvoked := true, waitInvoked := true
          heartbeatInvoked := true, checkpointInvoked := true, sourceInvoked := true }

/-- The string the tool finally returns (`"\n".join(results)`). -/
def create_complete_mm2_setup_report
    (plugin_result wait_result heartbeat_result checkpoint_result source_result : String) :
    String :=
  String.intercalate "\n"
    (create_complete_mm2_setup plugin_result wait_result heartbeat_result
      checkpoint_result source_result).results

/-! ### Connector description renderer: `describe_connector`
(server.py lines 1758-1801)

The collaborator response `response['connectorDescription']` is modelled
by `ConnectorDescription`; the tool's rendering of it into the returned
string is `describe_connector_render`. -/

structure ConnectorDescription where
  connectorName : String
  connectorArn : String
  connectorState : String
  description : Option String
  kafkaConnectVersion : String
  creationTime : String
  currentVersion : String
  serviceExecutionRoleArn : String
  connectorConfiguration : Option (List (String × String))
deriving DecidableEq

/-- The sensitive-key test of `describe_connector`:
`any(sensitive in key.lower() for sensitive in ['password', 'secret', 'key'])`. -/
def sensitiveKey (key : String) : Bool :=
  containsSub (strLower key) "password"
    || containsSub (strLower key) "secret"
    || containsSub (strLower key) "key"

/-- One configuration line of the `describe_connector` output, with the
value replaced by `***MASKED***` when the key is sensitive. -/
def renderConfigLine (key value : String) : String :=
  "  " ++ key ++ ": " ++ (if sensitiveKey key then "***MASKED***" else value) ++ "\n"

/-- The string built and returned by `describe_connector` on a
successful describe call. -/
def describe_connector_render (c : ConnectorDescription) : String :=
  "Connector Details:\n"
    ++ "Name: " ++ c.connectorName ++ "\n"
    ++ "ARN: " ++ c.connectorArn ++ "\n"
    ++ "State: " ++ c.connectorState ++ "\n"
    ++ "Description: " ++ c.description.getD "N/A" ++ "\n"
    ++ "Kafka Connect版本: " ++ c.kafkaConnectVersion ++ "\n"
    ++ "Creation Time: " ++ c.creationTime ++ "\n"
    ++ "Current Version: " ++ c.currentVersion ++ "\n"
    ++ "Service Execution Role: " ++ c.serviceExecutionRoleArn ++ "\n"
    ++ (match c.connectorConfiguration with
        | none => ""
        | some cfg =>
          "\nConfiguration:\n"
            ++ String.join (cfg.map (fun kv => renderConfigLine kv.1 kv.2)))

/-! ### Route53 hosted-zone lookup and the record-listing tool
(`msk_custom_domain/server.py` lines 151-176 and 289-307)

The Route53 `list_hosted_zones` response is modelled as the list of
`(Name, Id)` pairs (the Id already stripped of the `/hostedzone/`
prefix, as the source does); `list_resource_record_sets` as the list of
record sets the collaborator would return. -/

/-- Models Python `zone_name.endswith('.')`. -/
def endsWithDot (s : String) : Bool :=
  s.data.getLast? == some '.'

/-- Result of `route53_hosted_zone_info`: either the `zone_id`/`zone_info`
dictionary or the `{"error": ...}` dictionary. -/
inductive ZoneInfoResult where
  | found (zone_id : String)
  | errorDict (msg : String)
deriving DecidableEq

/-- `route53_hosted_zone_info` from msk_custom_domain/server.py (the
detailed `get_hosted_zone` payload carried alongside `zone_id` is not
modelled because no claim depends on it). -/
def route53_hosted_zone_info (hosted_zones : List (String × String))
    (zone_name : String) : ZoneInfoResult :=
  let zn := if endsWithDot zone_name then zone_name else zone_name ++ "."
  match hosted_zones.find? (fun z => z.1 = zn) with
  | some z => .found z.2
  | none => .errorDict ("Hosted zone '" ++ zn ++ "' not found")

/-- `list_route53_resource_record_sets` from msk_custom_domain/server.py.
The body has no try/except and immediately subscripts the result of
`route53_hosted_zone_info` with `"zone_id"`; when that result is the
error dictionary the subscript raises `KeyError('zone_id')`, which
propagates out of the tool — the `.error` channel below. -/
def list_route53_resource_record_sets (hosted_zones : List (String × String))
    (record_sets : List String) (zone_name : String) :
    Except String (String × List String) :=
  match route53_hosted_zone_info hosted_zones zone_name with
  | .found zone_id => .ok (zone_id, record_sets)
  | .errorDict _ => .error "KeyError: 'zone_id'"

/-! ### DR topology switch: `perform_dr_switch`
(`msk_custom_domain/server.py` lines 309-446)

External collaborator outcomes for one invocation are collected in
`DrWorld`; the embedding returns the tool's result together with the
trace of zone-affecting collaborator calls it issued, in order.  The
zone lookup `route53_hosted_zone_info` (which performs
`get_hosted_zone`, whose payload carries the `VPCs` association list
used at line 388) is the `zoneRead` event; `associate_vpc_with_hosted_zone`
is `associate`; `disassociate_vpc_from_hosted_zone` is `disassociate`;
the batched `change_resource_record_sets` is `changeRecords`. -/

inductive DrEvent where
  | zoneRead
  | brokerRead
  | associate (region vpcId : String)
  | disassociate (region vpcId : String)
  | changeRecords (upserts : List (String × String))
deriving DecidableEq

inductive AssocOutcome where
  | ok
  | conflict
  | failure (msg : String)
deriving DecidableEq

structure DrWorld where
  /-- outcome of `vpc_for_msk_cluster(primary_region, primary_cluster_name)`:
  the vpc id, or the error dictionary's message. -/
  primaryVpcLookup : Except String String
  /-- outcome of `vpc_for_msk_cluster(dr_region, dr_cluster_name)`. -/
  drVpcLookup : Except String String
  /-- outcome of `route53_hosted_zone_info(zone_name)`: the zone id and
  the `VPCs` association list (as `(VPCRegion, VPCId)` pairs) carried in
  the `zone_info` payload; `none` models the zone-not-found error. -/
  zoneLookup : Option (String × List (String × String))
  /-- outcome of `msk_broker_info(active_region, active_cluster_name)`:
  the plaintext broker addresses, or the error dictionary's message. -/
  brokerLookup : Except String (List String)
  /-- outcome of `associate_vpc_with_hosted_zone` for the active VPC. -/
  associateOutcome : AssocOutcome
  /-- outcome of `disassociate_vpc_from_hosted_zone` per (region, vpcId):
  `none` is success, `some e` a raised exception. -/
  disassociateOutcome : String → String → Option String
  /-- outcome of `change_resource_record_sets`: the change-info id,
  or a raised exception's message. -/
  changeOutcome : Except String String

/-- Result value of `perform_dr_switch`: the `{"error": ...}` dictionary
or the success dictionary. -/
inductive DrResult where
  | errorResult (msg : String)
  | switched (message : String) (broker_dns_names : List String) (change_info : String)
deriving DecidableEq

/-- Models `primary_vpc_id if primary_vpc_id else vpc_for_msk_cluster(...)`
(the lookup runs when the parameter is `None` or empty). -/
def resolveVpcParam (param : Option String) (lookup : Except String String) :
    Except String String :=
  if optBlank param then lookup else .ok (param.getD "")

/-- The UPSERT record batch built from the active cluster's broker
addresses: record name `broker{i}.{zone_name}` and value the broker
host (the address cut at its first `:`). -/
def drChanges (zone_name : String) (broker_addresses : List String) :
    List (String × String) :=
  broker_addresses.enum.map (fun ib =>
    ("broker" ++ toString (ib.1 + 1) ++ "." ++ zone_name,
      ⟨takeBefore ":".data ib.2.data⟩))

/-- The `broker_dns_names` list of the success dictionary
(`zone_name[:-1]`: the zone name without its trailing dot). -/
def drDnsNames (zone_name : String) (broker_addresses : List String) : List String :=
  broker_addresses.enum.map (fun ib =>
    "broker" ++ toString (ib.1 + 1) ++ "." ++ (⟨zone_name.data.dropLast⟩ : String))

/-- The disassociation loop of `perform_dr_switch` (lines 391-405): walks
the `VPCs` list of the zone observation, calling disassociate on every
entry that differs from the active association, stopping with the error
dictionary on the first raised exception.  Returns the error (if any)
and the trace of disassociate calls issued. -/
def drDetachLoop (w : DrWorld) (active_region active_vpc_id : String) :
    List (String × String) → Option String × List DrEvent
  | [] => (none, [])
  | rv :: rest =>
    if rv.2 ≠ active_vpc_id ∨ rv.1 ≠ active_region then
      match w.disassociateOutcome rv.1 rv.2 with
      | some e =>
        (some ("Failed to disassociate VPC " ++ rv.2 ++ ": " ++ e),
          [DrEvent.disassociate rv.1 rv.2])
      | none =>
        let tail := drDetachLoop w active_region active_vpc_id rest
        (tail.1, DrEvent.disassociate rv.1 rv.2 :: tail.2)
    else
      drDetachLoop w active_region active_vpc_id rest

/-- The switch tail after the attach succeeded (or was a benign
conflict): the detach loop over the pre-attach association snapshot
(source lines 387-405), then the batched UPSERT of the broker records
(lines 407-445). -/
def drAfterAttach (w : DrWorld)
    (active_region active_cluster_name active_vpc_id zn : String) (activate_dr : Bool)
    (snapshotVPCs : List (String × String)) (broker_addresses : List String) :
    DrResult × List DrEvent :=
  match drDetachLoop w active_region active_vpc_id snapshotVPCs with
  | (some e, detachEvents) =>
    (.errorResult e,
      [DrEvent.zoneRead, DrEvent.brokerRead,
        DrEvent.associate active_region active_vpc_id] ++ detachEvents)
  | (none, detachEvents) =>
    match w.changeOutcome with
    | .error e =>
      (.errorResult ("Failed to update DNS records: " ++ e),
        [DrEvent.zoneRead, DrEvent.brokerRead,
          DrEvent.associate active_region active_vpc_id] ++ detachEvents
          ++ [DrEvent.changeRecords (drChanges zn broker_addresses)])
    | .ok change_info =>
      (.switched
        ("Successfully switched to "
          ++ (if activate_dr then "DR" else "Primary")
          ++ " cluster " ++ active_cluster_name ++ " in " ++ active_region)
        (drDnsNames zn broker_addresses) change_info,
        [DrEvent.zoneRead, DrEvent.brokerRead,
          DrEvent.associate active_region active_vpc_id] ++ detachEvents
          ++ [DrEvent.changeRecords (drChanges zn broker_addresses)])

/-- The attach step (source lines 371-385): a raised conflict is
absorbed as success; any other exception aborts the switch. -/
def drAttach (w : DrWorld)
    (active_region active_cluster_name active_vpc_id zn : String) (activate_dr : Bool)
    (snapshotVPCs : List (String × String)) (broker_addresses : List String) :
    DrResult × List DrEvent :=
  match w.associateOutcome with
  | .failure e =>
    (.errorResult ("Failed to associate VPC with hosted zone: " ++ e),
      [DrEvent.zoneRead, DrEvent.brokerRead])
  | _ =>
    drAfterAttach w active_region active_cluster_name active_vpc_id zn activate_dr
      snapshotVPCs broker_addresses

/-- The body of `perform_dr_switch` after the VPC resolution and the
computation of the active region/cluster/VPC and the dot-terminated zone
name (the Python function's local variables, here passed as
arguments).  Note that the `VPCs` list handed to the detach stage is the
one carried by the zone lookup performed here, before the attach. -/
def perform_dr_switch_core (w : DrWorld)
    (active_region active_cluster_name active_vpc_id zn : String) (activate_dr : Bool) :
    DrResult × List DrEvent :=
  match w.zoneLookup with
  | none =>
    (.errorResult ("Hosted zone '" ++ zn ++ "' not found"), [DrEvent.zoneRead])
  | some zi =>
    match w.brokerLookup with
    | .error e => (.errorResult e, [DrEvent.zoneRead, DrEvent.brokerRead])
    | .ok broker_addresses =>
      drAttach w active_region active_cluster_name active_vpc_id zn activate_dr
        zi.2 broker_addresses

/-- `perform_dr_switch` from msk_custom_domain/server.py, returning the
tool's result and the ordered trace of zone-affecting collaborator
calls. -/
def perform_dr_switch (w : DrWorld)
    (primary_region primary_cluster_name dr_region dr_cluster_name zone_name : String)
    (primary_vpc_id dr_vpc_id : Option String) (activate_dr : Bool) :
    DrResult × List DrEvent :=
  match resolveVpcParam primary_vpc_id w.primaryVpcLookup with
  | .error e => (.errorResult e, [])
  | .ok pvpc =>
    match resolveVpcParam dr_vpc_id w.drVpcLookup with
    | .error e => (.errorResult e, [])
    | .ok dvpc =>
      perform_dr_switch_core w
        (if activate_dr then dr_region else primary_region)
        (if activate_dr then dr_cluster_name else primary_cluster_name)
        (if activate_dr then dvpc else pvpc)
        (if endsWithDot zone_name then zone_name else zone_name ++ ".")
        activate_dr

/-- Zone association state transition for one collaborator call: an
`associate` adds the pair (idempotently), a `disassociate` removes it;
reads and record changes leave the associations unchanged. -/
def applyDrEvent (s : List (String × String)) : DrEvent → List (String × String)
  | .associate r v => if (r, v) ∈ s then s else s ++ [(r, v)]
  | .disassociate r v => s.filter (fun rv => rv ≠ (r, v))
  | _ => s

/-- Zone association state after a prefix of the call trace, starting
from the initial association set. -/
def assocStateAfter (init : List (String × String)) (evs : List DrEvent) :
    List (String × String) :=
  evs.foldl applyDrEvent init

/-! ### Concrete fixtures used by the closed witness and counterexample
theorems below. -/

/-- A successful `create_custom_plugin` result string (the format of
server.py line 823). -/
def mm2PluginResultOk : String :=
  "Plugin creation started: mm2-plugin, ARN: arn:aws:kafkaconnect:us-east-1:111122223333:custom-plugin/mm2-plugin/abc12345, Initial state: CREATING. Use check_plugin_status to monitor final status."

/-- A successful `wait_for_plugin_ready` result string (line 951). -/
def mm2WaitResultOk : String :=
  "✅ Plugin successfully reached target state: ACTIVE"

/-- A failed `create_mirror_heartbeat_connector` result string
(line 1213). -/
def mm2HeartbeatResultFailed : String :=
  "MirrorHeartbeatConnector creation failed (BadRequestException): Invalid subnet configuration"

/-- A successful `create_mirror_checkpoint_connector` result string. -/
def mm2CheckpointResultOk : String :=
  "Successfully created MirrorCheckpointConnector: mm2-plugin-checkpoint, ARN: arn:aws:kafkaconnect:us-east-1:111122223333:connector/mm2-plugin-checkpoint/def, State: CREATING. Use check_connector_status to monitor final status."

/-- A successful `create_mirror_source_connector` result string. -/
def mm2SourceResultOk : String :=
  "Successfully created MirrorSourceConnector: mm2-plugin-source, ARN: arn:aws:kafkaconnect:us-east-1:111122223333:connector/mm2-plugin-source/ghi, State: CREATING. Use check_connector_status to monitor final status."

/-- A concrete collaborator world for one DR-switch invocation: the zone
is currently associated with the primary VPC `(us-east-1, vpc-1)` and
every call succeeds. -/
def drWorld0 : DrWorld where
  primaryVpcLookup := .ok "vpc-1"
  drVpcLookup := .ok "vpc-2"
  zoneLookup := some ("Z123", [("us-east-1", "vpc-1")])
  brokerLookup := .ok ["b-1.msk.amazonaws.com:9092", "b-2.msk.amazonaws.com:9092"]
  associateOutcome := .ok
  disassociateOutcome := fun _ _ => none
  changeOutcome := .ok "C123"

/-- A concrete connector description whose configuration contains one
sensitive entry. -/
def connDesc0 : ConnectorDescription where
  connectorName := "mm2-source"
  connectorArn := "arn:aws:kafkaconnect:us-east-1:111122223333:connector/mm2-source/x"
  connectorState := "RUNNING"
  description := none
  kafkaConnectVersion := "2.7.1"
  creationTime := "2024-01-01T00:00:00Z"
  currentVersion := "1"
  serviceExecutionRoleArn := "arn:aws:iam::111122223333:role/msk-connect"
  connectorConfiguration := some
    [("database.password", "hunter2"), ("tasks.max", "1")]

/-- The same configuration with a different value of the sensitive
entry. -/
def connCfg1 : List (String × String) :=
  [("database.password", "rosebud"), ("tasks.max", "1")]

/-! ### Helper lemmas -/

theorem char_toNat_ofNat {n : Nat} (h : n < 55296) : (Char.ofNat n).toNat = n := by
  rw [Char.ofNat, dif_pos (Or.inl h)]
  rfl

theorem charToLower_idem (c : Char) : c.toLower.toLower = c.toLower := by
  unfold Char.toLower
  by_cases h : c.toNat ≥ 65 ∧ c.toNat ≤ 90
  · rw [if_pos h]
    have hv : (Char.ofNat (c.toNat + 32)).toNat = c.toNat + 32 :=
      char_toNat_ofNat (by omega)
    rw [if_neg (by rw [hv]; omega)]
  · rw [if_neg h, if_neg h]

theorem strLower_idem (s : String) : strLower (strLower s) = strLower s := by
  unfold strLower
  simp only [List.map_map]
  exact congrArg String.mk (List.map_congr_left (fun c _ => charToLower_idem c))

theorem containsSub_scramJaas_username (u p : String) :
    containsSub (scramJaas u p) u = true := by
  rw [containsSub, decide_eq_true_eq]
  exact ⟨scramJaasPre.data, (scramJaasMid ++ p ++ scramJaasPost).data, by
    simp [scramJaas, List.append_assoc]⟩

theorem containsSub_scramJaas_password (u p : String) :
    containsSub (scramJaas u p) p = true := by
  rw [containsSub, decide_eq_true_eq]
  exact ⟨(scramJaasPre ++ u ++ scramJaasMid).data, scramJaasPost.data, by
    simp [scramJaas, List.append_assoc]⟩

/-! ### Claim C9 -/

/-- C9: the mechanism selector is matched case-insensitively: for every
alias, credentials and mechanism string, `generate_cluster_auth_config`
applied to the string and to its lowercase form either both fail or both
succeed with identical mappings (`Except.toOption` erases only the error
message, which for the unsupported-type error echoes the original
spelling). -/
theorem auth_config_case_insensitive_mechanism
    (cluster_alias auth_type : String) (role_arn username password : Option String) :
    (generate_cluster_auth_config cluster_alias auth_type role_arn username password).toOption
      = (generate_cluster_auth_config cluster_alias (strLower auth_type)
          role_arn username password).toOption := by
  unfold generate_cluster_auth_config
  rw [strLower_idem]
  split_ifs <;> rfl

/-! ### Claim C4 -/

/-- C4 counterexample: building the IAM configuration with a present,
nonempty role ARN yields a mapping with twelve keys, not a number of
keys between six and nine as claimed. -/
theorem iam_config_key_count_cx :
    ((generate_cluster_auth_config "source" "iam"
        (some "arn:aws:iam::111122223333:role/mm2") none none).toOption.map
          List.length) = some 12
      ∧ ¬(6 ≤ 12 ∧ 12 ≤ 9) := by
  constructor
  · rfl
  · decide

/-- C4 amended: for every alias and every present, nonempty role ARN the
IAM branch succeeds with exactly twelve keys (security-protocol,
SASL-mechanism, JAAS-configuration and credential-callback keys, each
for the base connection, the producer and the consumer), and it fails
when the role ARN is absent. -/
theorem iam_config_twelve_keys (cluster_alias role_arn : String)
    (username password : Option String) (h : role_arn ≠ "") :
    generate_cluster_auth_config cluster_alias "iam" (some role_arn) username password
        = .ok (iamConfig cluster_alias role_arn)
      ∧ (iamConfig cluster_alias role_arn).length = 12
      ∧ (∀ u p, generate_cluster_auth_config cluster_alias "iam" none u p
          = .error ("IAM role ARN is required for IAM authentication on "
              ++ cluster_alias ++ " cluster")) := by
  have hb : optBlank (some role_arn) = false := by
    simp [optBlank, h]
  refine ⟨?_, by simp [iamConfig], fun u p => ?_⟩
  · unfold generate_cluster_auth_config
    rw [if_pos (by decide), if_neg (by simp [hb])]
    simp
  · unfold generate_cluster_auth_config
    rw [if_pos (by decide), if_pos (by rfl)]

/-- C4 witness: the amended theorem applied at a concrete alias and role
ARN. -/
theorem iam_config_twelve_keys_witness :
    generate_cluster_auth_config "source" "iam"
        (some "arn:aws:iam::111122223333:role/mm2") none none
        = .ok (iamConfig "source" "arn:aws:iam::111122223333:role/mm2")
      ∧ (iamConfig "source" "arn:aws:iam::111122223333:role/mm2").length = 12
      ∧ (∀ u p, generate_cluster_auth_config "source" "iam" none u p
          = .error ("IAM role ARN is required for IAM authentication on "
              ++ "source" ++ " cluster")) :=
  iam_config_twelve_keys "source" "arn:aws:iam::111122223333:role/mm2" none none
    (by decide)

/-! ### Claim C8 -/

/-- C8 counterexample: with the SCRAM mechanism and both username and
password present (`some ""` and `some "p"`), the builder still fails —
the code treats a present-but-empty credential like an absent one — so
"with both username and password present it succeeds" is false as
stated. -/
theorem scram_present_empty_username_cx :
    (generate_cluster_auth_config "source" "scram" none (some "") (some "p")).toOption
        = none
      ∧ (some "" : Option String).isSome = true := by
  constructor
  · rfl
  · rfl

/-- C8 amended: with alias "source" and the SCRAM mechanism, the builder
fails whenever username or password is absent (or empty), and with both
present and nonempty it succeeds with a mapping whose keys all carry the
`source.cluster.` prefix and whose JAAS credential values embed the
username and password verbatim. -/
theorem scram_config_source (username password : String)
    (hu : username ≠ "") (hp : password ≠ "") :
    generate_cluster_auth_config "source" "scram" none (some username) (some password)
        = .ok (scramConfig "source" username password)
      ∧ (∀ kv ∈ scramConfig "source" username password,
          "source.cluster.".data.isPrefixOf kv.1.data = true)
      ∧ (("source" ++ ".cluster.sasl.jaas.config", scramJaas username password)
          ∈ scramConfig "source" username password)
      ∧ containsSub (scramJaas username password) username = true
      ∧ containsSub (scramJaas username password) password = true
      ∧ (∀ p, generate_cluster_auth_config "source" "scram" none none p
          = .error "Username and password are required for SCRAM authentication on source cluster")
      ∧ (∀ u, generate_cluster_auth_config "source" "scram" none u none
          = .error "Username and password are required for SCRAM authentication on source cluster") := by
  have hbu : optBlank (some username) = false := by simp [optBlank, hu]
  have hbp : optBlank (some password) = false := by simp [optBlank, hp]
  refine ⟨?_, ?_, ?_, containsSub_scramJaas_username _ _,
    containsSub_scramJaas_password _ _, fun p => ?_, fun u => ?_⟩
  · unfold generate_cluster_auth_config
    rw [if_neg (by decide), if_neg (by decide), if_pos (by decide),
      if_neg (by simp [hbu, hbp])]
    simp
  · intro kv hkv
    simp only [scramConfig, List.mem_cons, List.not_mem_nil, or_false] at hkv
    rcases hkv with rfl | rfl | rfl | rfl | rfl | rfl | rfl | rfl | rfl <;>
      first
        | decide
        | exact (by decide :
            "source.cluster.".data.isPrefixOf ("source" ++ ".cluster.sasl.jaas.config").data = true)
  · simp [scramConfig]
  · unfold generate_cluster_auth_config
    rw [if_neg (by decide), if_neg (by decide), if_pos (by decide),
      if_pos (by rfl)]
    rfl
  · unfold generate_cluster_auth_config
    rw [if_neg (by decide), if_neg (by decide), if_pos (by decide),
      if_pos (by simp [optBlank])]
    rfl

/-- C8 witness: the amended theorem applied at username "u" and password
"p". -/
theorem scram_config_source_witness :
    generate_cluster_auth_config "source" "scram" none (some "u") (some "p")
        = .ok (scramConfig "source" "u" "p")
      ∧ (∀ kv ∈ scramConfig "source" "u" "p",
          "source.cluster.".data.isPrefixOf kv.1.data = true)
      ∧ (("source" ++ ".cluster.sasl.jaas.config", scramJaas "u" "p")
          ∈ scramConfig "source" "u" "p")
      ∧ containsSub (scramJaas "u" "p") "u" = true
      ∧ containsSub (scramJaas "u" "p") "p" = true
      ∧ (∀ p, generate_cluster_auth_config "source" "scram" none none p
          = .error "Username and password are required for SCRAM authentication on source cluster")
      ∧ (∀ u, generate_cluster_auth_config "source" "scram" none u none
          = .error "Username and password are required for SCRAM authentication on source cluster") :=
  scram_config_source "u" "p" (by decide) (by decide)

/-! ### Claims C6 and C7: the state poller -/

/-- While the observed states are neither target nor failure and time
remains, the polling loop advances one iteration at a time. -/
theorem waitLoop_progress (check : Nat → CheckResult)
    (target_states failure_states : List String)
    (max_wait_seconds check_interval : Nat) (resource_name : String) :
    ∀ (k fuel k₀ elapsed : Nat),
      (∀ j, j < k → ∃ sj, check (k₀ + j) = .ok sj ∧ sj ∉ target_states
        ∧ sj ∉ failure_states) →
      elapsed + k * check_interval < max_wait_seconds →
      k < fuel →
      waitLoop check target_states failure_states max_wait_seconds check_interval
          resource_name fuel k₀ elapsed
        = waitLoop check target_states failure_states max_wait_seconds check_interval
            resource_name (fuel - k) (k₀ + k) (elapsed + k * check_interval) := by
  intro k
  induction k with
  | zero => intro fuel k₀ elapsed _ _ _; simp
  | succ k ih =>
    intro fuel k₀ elapsed hneither htime hfuel
    obtain ⟨f, rfl⟩ : ∃ f, fuel = f + 1 := ⟨fuel - 1, by omega⟩
    obtain ⟨s₀, hchk, hnt, hnf⟩ := hneither 0 (by omega)
    rw [Nat.add_zero] at hchk
    rw [waitLoop, if_pos (show elapsed < max_wait_seconds by omega), hchk]
    simp only [if_neg hnt, if_neg hnf]
    rw [ih f (k₀ + 1) (elapsed + check_interval)
      (fun j hj => by
        have h := hneither (j + 1) (by omega)
        rw [show k₀ + (j + 1) = k₀ + 1 + j by omega] at h
        exact h)
      (by rw [Nat.succ_mul] at htime; omega) (by omega)]
    have e1 : f - k = f + 1 - (k + 1) := by omega
    have e2 : k₀ + 1 + k = k₀ + (k + 1) := by omega
    have e3 : elapsed + check_interval + k * check_interval
        = elapsed + (k + 1) * check_interval := by
      rw [Nat.succ_mul]; omega
    rw [e1, e2, e3]

/-- C7: for every sequence of successive check results in which a
failure state appears (at poll index k, within the time budget) before
any target state, the poller returns success = false with that state as
the final state at that poll, having invoked the check function exactly
k + 1 times — no further invocation happens. -/
theorem poller_stops_at_first_failure_state (check : Nat → CheckResult)
    (target_states failure_states : List String)
    (max_wait_seconds check_interval : Nat) (resource_name : String)
    (k : Nat) (s : String)
    (hint : 1 ≤ check_interval)
    (htime : k * check_interval < max_wait_seconds)
    (hprior : ∀ j, j < k → ∃ sj, check j = .ok sj ∧ sj ∉ target_states
      ∧ sj ∉ failure_states)
    (hchk : check k = .ok s) (hnt : s ∉ target_states) (hf : s ∈ failure_states) :
    wait_for_resource_state check target_states failure_states max_wait_seconds
        check_interval resource_name
      = ({ success := false, state := s,
           message := resource_name ++ " failed with state: " ++ s }, k + 1) := by
  have hk : k ≤ k * check_interval := Nat.le_mul_of_pos_right k (by omega)
  rw [wait_for_resource_state,
    waitLoop_progress check target_states failure_states max_wait_seconds
      check_interval resource_name k (max_wait_seconds + 1) 0 0
      (by simpa using hprior) (by omega) (by omega)]
  obtain ⟨f, hf'⟩ : ∃ f, max_wait_seconds + 1 - k = f + 1 := ⟨max_wait_seconds - k, by omega⟩
  rw [hf', waitLoop]
  rw [if_pos (by omega), Nat.zero_add, hchk]
  simp only [if_neg hnt, if_pos hf]

/-- C7 witness: a polling run that sees CREATING then CREATE_FAILED
stops at the second poll with success = false. -/
theorem poller_stops_at_first_failure_state_witness :
    wait_for_resource_state
        (fun n => if n = 0 then .ok "CREATING" else .ok "CREATE_FAILED")
        ["ACTIVE"] ["CREATE_FAILED", "DELETING"] 600 15 "Plugin"
      = ({ success := false, state := "CREATE_FAILED",
           message := "Plugin" ++ " failed with state: " ++ "CREATE_FAILED" }, 2) :=
  poller_stops_at_first_failure_state
    (fun n => if n = 0 then .ok "CREATING" else .ok "CREATE_FAILED")
    ["ACTIVE"] ["CREATE_FAILED", "DELETING"] 600 15 "Plugin" 1 "CREATE_FAILED"
    (by decide) (by decide)
    (fun j hj => by
      have hj0 : j = 0 := by omega
      subst hj0
      exact ⟨"CREATING", rfl, by decide, by decide⟩)
    rfl (by decide) (by decide)

/-- C6 counterexample: with maxWait = 0 and interval = 15 (so
maxWait < interval), the check function is invoked zero times, not
exactly once: the while guard `elapsed < max_wait_seconds` is false at
entry and the TIMEOUT outcome is returned directly. -/
theorem poller_zero_polls_at_zero_max_wait_cx :
    wait_for_resource_state (fun _ => .ok "CREATING") ["ACTIVE"]
        ["CREATE_FAILED", "DELETING"] 0 15 "Plugin"
      = (timeoutOutcome "Plugin" 0, 0)
      ∧ (0 : Nat) ≠ 1 := by
  constructor
  · rfl
  · decide

/-- C6 amended: for every maxWait and interval with
0 < maxWait < interval, the poller invokes the check function exactly
once, immediately (no initial sleep), and when the single observed state
is in neither the target set nor the failure set the outcome is the
TIMEOUT outcome; when maxWait = 0 the check is never invoked. -/
theorem poller_single_poll_then_timeout (check : Nat → CheckResult)
    (target_states failure_states : List String)
    (max_wait_seconds check_interval : Nat) (resource_name : String)
    (h0 : 0 < max_wait_seconds) (h1 : max_wait_seconds < check_interval) :
    (wait_for_resource_state check target_states failure_states max_wait_seconds
        check_interval resource_name).2 = 1
      ∧ (∀ s, check 0 = .ok s → s ∉ target_states → s ∉ failure_states →
          wait_for_resource_state check target_states failure_states max_wait_seconds
              check_interval resource_name
            = (timeoutOutcome resource_name max_wait_seconds, 1)) := by
  obtain ⟨m, rfl⟩ : ∃ m, max_wait_seconds = m + 1 := ⟨max_wait_seconds - 1, by omega⟩
  constructor
  · rw [wait_for_resource_state, waitLoop]
    rw [if_pos (by omega)]
    cases hchk : check 0 with
    | exn e => rfl
    | ok s =>
      by_cases ht : s ∈ target_states
      · simp only [if_pos ht]
      · by_cases hfa : s ∈ failure_states
        · simp only [if_neg ht, if_pos hfa]
        · simp only [if_neg ht, if_neg hfa]
          rw [waitLoop, if_neg (by omega)]
  · intro s hchk hnt hnf
    rw [wait_for_resource_state, waitLoop]
    rw [if_pos (by omega), hchk]
    simp only [if_neg hnt, if_neg hnf]
    rw [waitLoop, if_neg (by omega)]

/-- C6 witness: the amended theorem applied with maxWait = 1 and
interval = 15 on a check that always reports CREATING. -/
theorem poller_single_poll_then_timeout_witness :
    (wait_for_resource_state (fun _ => CheckResult.ok "CREATING") ["ACTIVE"]
        ["CREATE_FAILED", "DELETING"] 1 15 "Plugin").2 = 1
      ∧ wait_for_resource_state (fun _ => CheckResult.ok "CREATING") ["ACTIVE"]
          ["CREATE_FAILED", "DELETING"] 1 15 "Plugin"
        = (timeoutOutcome "Plugin" 1, 1) :=
  ⟨(poller_single_poll_then_timeout _ _ _ _ _ _ (by decide) (by decide)).1,
    (poller_single_poll_then_timeout _ _ _ _ _ _ (by decide) (by decide)).2
      "CREATING" rfl (by decide) (by decide)⟩

/-! ### Claim C1: the complete-setup orchestrator -/

/-- C1 counterexample: when the heartbeat-connector step (step 3) fails
— its result contains "creation failed" — the orchestrator still
invokes the checkpoint and source connector steps and their results
appear in the returned trail, so execution does not stop at the first
failing step. -/
theorem setup_continues_after_connector_failure_cx :
    containsSub mm2HeartbeatResultFailed "creation failed" = true
      ∧ (create_complete_mm2_setup mm2PluginResultOk mm2WaitResultOk
          mm2HeartbeatResultFailed mm2CheckpointResultOk mm2SourceResultOk).checkpointInvoked
          = true
      ∧ (create_complete_mm2_setup mm2PluginResultOk mm2WaitResultOk
          mm2HeartbeatResultFailed mm2CheckpointResultOk mm2SourceResultOk).sourceInvoked
          = true
      ∧ mm2CheckpointResultOk ∈ (create_complete_mm2_setup mm2PluginResultOk mm2WaitResultOk
          mm2HeartbeatResultFailed mm2CheckpointResultOk mm2SourceResultOk).results
      ∧ mm2SourceResultOk ∈ (create_complete_mm2_setup mm2PluginResultOk mm2WaitResultOk
          mm2HeartbeatResultFailed mm2CheckpointResultOk mm2SourceResultOk).results := by
  refine ⟨by decide, ?_, ?_, ?_, ?_⟩ <;> decide

/-- C1 amended: the orchestrator stops early only on step-1/step-2
failures: the connector steps run exactly when the plugin result does
not contain "Failed", an ARN can be extracted from it, and the wait
result does not contain the failure marker; the three connector steps
are invoked all together or not at all, irrespective of their own
results; and on each early exit the trail contains exactly the steps
attempted so far. -/
theorem setup_stop_conditions
    (plugin_result wait_result heartbeat_result checkpoint_result source_result : String) :
    ((create_complete_mm2_setup plugin_result wait_result heartbeat_result
        checkpoint_result source_result).heartbeatInvoked
      = (!containsSub plugin_result "Failed"
          && (extract_plugin_arn plugin_result).isSome
          && !containsSub wait_result "❌"))
    ∧ ((create_complete_mm2_setup plugin_result wait_result heartbeat_result
        checkpoint_result source_result).checkpointInvoked
      = (create_complete_mm2_setup plugin_result wait_result heartbeat_result
          checkpoint_result source_result).heartbeatInvoked)
    ∧ ((create_complete_mm2_setup plugin_result wait_result heartbeat_result
        checkpoint_result source_result).sourceInvoked
      = (create_complete_mm2_setup plugin_result wait_result heartbeat_result
          checkpoint_result source_result).heartbeatInvoked)
    ∧ (containsSub plugin_result "Failed" = true →
        (create_complete_mm2_setup plugin_result wait_result heartbeat_result
            checkpoint_result source_result).results
          = ["Step 1: Creating custom plugin...", plugin_result])
    ∧ (containsSub plugin_result "Failed" = false → extract_plugin_arn plugin_result = none →
        (create_complete_mm2_setup plugin_result wait_result heartbeat_result
            checkpoint_result source_result).results
          = ["Step 1: Creating custom plugin...", plugin_result,
             "Error: Unable to extract ARN from plugin creation result"])
    ∧ (containsSub plugin_result "Failed" = false →
        (extract_plugin_arn plugin_result).isSome = true →
        containsSub wait_result "❌" = true →
        (create_complete_mm2_setup plugin_result wait_result heartbeat_result
            checkpoint_result source_result).results
          = ["Step 1: Creating custom plugin...", plugin_result,
             "\nStep 2: Waiting for plugin to be ready...", wait_result])
    ∧ ((create_complete_mm2_setup plugin_result wait_result heartbeat_result
        checkpoint_result source_result).heartbeatInvoked = true →
        heartbeat_result ∈ (create_complete_mm2_setup plugin_result wait_result
          heartbeat_result checkpoint_result source_result).results
        ∧ checkpoint_result ∈ (create_complete_mm2_setup plugin_result wait_result
            heartbeat_result checkpoint_result source_result).results
        ∧ source_result ∈ (create_complete_mm2_setup plugin_result wait_result
            heartbeat_result checkpoint_result source_result).results) := by
  unfold create_complete_mm2_setup
  by_cases h1 : containsSub plugin_result "Failed"
  · simp [h1]
  · cases h2 : extract_plugin_arn plugin_result with
    | none => simp [h1, h2]
    | some arn =>
      by_cases h3 : containsSub wait_result "❌"
      · simp [h1, h2, h3]
      · simp [h1, h2, h3]

/-- C1 witness: the amended theorem applied at the concrete fixture
strings of the counterexample run. -/
theorem setup_stop_conditions_witness :
    ((create_complete_mm2_setup mm2PluginResultOk mm2WaitResultOk
        mm2HeartbeatResultFailed mm2CheckpointResultOk mm2SourceResultOk).checkpointInvoked
      = (create_complete_mm2_setup mm2PluginResultOk mm2WaitResultOk
          mm2HeartbeatResultFailed mm2CheckpointResultOk mm2SourceResultOk).heartbeatInvoked)
    ∧ (mm2HeartbeatResultFailed ∈ (create_complete_mm2_setup mm2PluginResultOk mm2WaitResultOk
        mm2HeartbeatResultFailed mm2CheckpointResultOk mm2SourceResultOk).results
      ∧ mm2CheckpointResultOk ∈ (create_complete_mm2_setup mm2PluginResultOk mm2WaitResultOk
          mm2HeartbeatResultFailed mm2CheckpointResultOk mm2SourceResultOk).results
      ∧ mm2SourceResultOk ∈ (create_complete_mm2_setup mm2PluginResultOk mm2WaitResultOk
          mm2HeartbeatResultFailed mm2CheckpointResultOk mm2SourceResultOk).results) :=
  ⟨(setup_stop_conditions mm2PluginResultOk mm2WaitResultOk mm2HeartbeatResultFailed
      mm2CheckpointResultOk mm2SourceResultOk).2.1,
    (setup_stop_conditions mm2PluginResultOk mm2WaitResultOk mm2HeartbeatResultFailed
      mm2CheckpointResultOk mm2SourceResultOk).2.2.2.2.2.2 (by decide)⟩

/-! ### Claim C10: sensitive-value masking in `describe_connector` -/

/-- Rendering a configuration line depends only on the key when the key
is sensitive; for a non-sensitive key equal values render equally. -/
theorem renderConfigLine_congr (k k' v v' : String) (hk : k = k')
    (hv : sensitiveKey k = false → v = v') :
    renderConfigLine k v = renderConfigLine k' v' := by
  subst hk
  unfold renderConfigLine
  cases hs : sensitiveKey k with
  | true => rw [if_pos rfl, if_pos rfl]
  | false => rw [if_neg (by simp [hs]), if_neg (by simp [hs]), hv hs]

/-- Configuration lists related entry-by-entry (equal keys, equal
values at non-sensitive keys) render to the same lines. -/
theorem renderConfig_map_congr (cfg cfg' : List (String × String))
    (hrel : List.Forall₂ (fun kv kv' => kv.1 = kv'.1
      ∧ (sensitiveKey kv.1 = false → kv.2 = kv'.2)) cfg cfg') :
    cfg.map (fun kv => renderConfigLine kv.1 kv.2)
      = cfg'.map (fun kv => renderConfigLine kv.1 kv.2) := by
  induction hrel with
  | nil => rfl
  | cons hkv _ ih =>
    simp only [List.map_cons]
    rw [renderConfigLine_congr _ _ _ _ hkv.1 hkv.2, ih]

/-- C10: every configuration entry whose key contains "password",
"secret" or "key" case-insensitively is rendered as ***MASKED*** instead
of its value, and two connector descriptions that agree on everything
except the values of sensitive configuration entries render to the same
output string — the output does not depend on masked values. -/
theorem describe_connector_masks_sensitive_values :
    (∀ key value, sensitiveKey key = true →
        renderConfigLine key value = "  " ++ key ++ ": " ++ "***MASKED***" ++ "\n")
      ∧ (∀ (c : ConnectorDescription) (cfg cfg' : List (String × String)),
          c.connectorConfiguration = some cfg →
          List.Forall₂ (fun kv kv' => kv.1 = kv'.1
            ∧ (sensitiveKey kv.1 = false → kv.2 = kv'.2)) cfg cfg' →
          describe_connector_render c
            = describe_connector_render { c with connectorConfiguration := some cfg' }) := by
  constructor
  · intro key value hs
    unfold renderConfigLine
    rw [if_pos hs]
  · intro c cfg cfg' hc hrel
    unfold describe_connector_render
    rw [hc]
    simp only []
    rw [renderConfig_map_congr cfg cfg' hrel]

/-- C10 witness: the masking theorem applied to a concrete description
whose configuration holds one JAAS password entry, compared with the
same description carrying a different password. -/
theorem describe_connector_masks_sensitive_values_witness :
    renderConfigLine "database.password" "hunter2"
        = "  " ++ "database.password" ++ ": " ++ "***MASKED***" ++ "\n"
      ∧ describe_connector_render connDesc0
        = describe_connector_render { connDesc0 with connectorConfiguration := some connCfg1 } :=
  ⟨describe_connector_masks_sensitive_values.1 "database.password" "hunter2" (by decide),
    describe_connector_masks_sensitive_values.2 connDesc0
      [("database.password", "hunter2"), ("tasks.max", "1")]
      connCfg1 rfl
      (List.Forall₂.cons ⟨rfl, fun h => absurd h (by decide)⟩
        (List.Forall₂.cons ⟨rfl, fun _ => rfl⟩ List.Forall₂.nil))⟩

/-! ### Claim C5: exception surface of the public entry points -/

/-- C5 (code bug evidence): the public tool
`list_route53_resource_record_sets` does not return a structured failure
on a not-found zone lookup — the zone-info collaborator returns its
structured error dictionary, but the tool subscripts it with
`"zone_id"` without checking, so a raw `KeyError` propagates out of the
entry point (every other caller of `route53_hosted_zone_info` in the
same file checks the `"error"` key first). -/
theorem list_record_sets_keyerror_on_missing_zone :
    route53_hosted_zone_info [] "example.com"
        = .errorDict "Hosted zone 'example.com.' not found"
      ∧ list_route53_resource_record_sets [] [] "example.com"
        = .error "KeyError: 'zone_id'"
      ∧ (∀ zones records zone_name,
          (route53_hosted_zone_info zones zone_name matches .errorDict _) →
          (list_route53_resource_record_sets zones records zone_name matches .error _)) := by
  refine ⟨by decide, rfl, ?_⟩
  intro zones records zone_name h
  unfold list_route53_resource_record_sets
  cases hz : route53_hosted_zone_info zones zone_name with
  | found zid => rw [hz] at h; exact absurd h (by simp)
  | errorDict e => simp

/-! ### Claims C2 and C3: the DR topology switch -/

/-- When every disassociate call succeeds, the detach loop issues
exactly one disassociate per entry of the observed association list that
differs from the active association, in list order. -/
theorem drDetachLoop_all_ok (w : DrWorld) (ar av : String)
    (hds : ∀ r v, w.disassociateOutcome r v = none) :
    ∀ l : List (String × String),
      drDetachLoop w ar av l
        = (none, (l.filter (fun rv => decide (rv.2 ≠ av ∨ rv.1 ≠ ar))).map
            (fun rv => DrEvent.disassociate rv.1 rv.2)) := by
  intro l
  induction l with
  | nil => rfl
  | cons rv rest ih =>
    unfold drDetachLoop
    by_cases hc : rv.2 ≠ av ∨ rv.1 ≠ ar
    · rw [if_pos hc, hds rv.1 rv.2, List.filter_cons_of_pos (by simpa using hc)]
      simp only [ih, List.map_cons]
    · rw [if_neg hc, List.filter_cons_of_neg (by simpa using hc)]
      exact ih

/-- Every event issued by the detach loop is a disassociate of a pair
that differs from the active association. -/
theorem drDetachLoop_events (w : DrWorld) (ar av : String) :
    ∀ l : List (String × String), ∀ e ∈ (drDetachLoop w ar av l).2,
      ∃ r v, e = DrEvent.disassociate r v ∧ (r, v) ≠ (ar, av) := by
  intro l
  induction l with
  | nil => intro e he; simp [drDetachLoop] at he
  | cons rv rest ih =>
    intro e he
    unfold drDetachLoop at he
    by_cases hc : rv.2 ≠ av ∨ rv.1 ≠ ar
    · rw [if_pos hc] at he
      have hpair : (rv.1, rv.2) ≠ (ar, av) := by
        intro hp
        rw [Prod.mk.injEq] at hp
        tauto
      cases hdo : w.disassociateOutcome rv.1 rv.2 with
      | some err =>
        rw [hdo] at he
        simp only [List.mem_singleton] at he
        exact ⟨rv.1, rv.2, he, hpair⟩
      | none =>
        rw [hdo] at he
        simp only [List.mem_cons] at he
        rcases he with rfl | he
        · exact ⟨rv.1, rv.2, rfl, hpair⟩
        · exact ih e he
    · rw [if_neg hc] at he
      exact ih e he

/-- A pair stays in the association state along any sequence of calls
that never disassociates it. -/
theorem mem_foldl_applyDrEvent (a : String × String) :
    ∀ (evs : List DrEvent) (s : List (String × String)), a ∈ s →
      (∀ e ∈ evs, ∀ r v, e = DrEvent.disassociate r v → (r, v) ≠ a) →
      a ∈ evs.foldl applyDrEvent s := by
  intro evs
  induction evs with
  | nil => intro s ha _; simpa using ha
  | cons e rest ih =>
    intro s ha hno
    rw [List.foldl_cons]
    apply ih
    · cases e with
      | associate r v =>
        show a ∈ (if (r, v) ∈ s then s else s ++ [(r, v)])
        by_cases hin : (r, v) ∈ s
        · rw [if_pos hin]; exact ha
        · rw [if_neg hin]; exact List.mem_append_left _ ha
      | disassociate r v =>
        have hne : (r, v) ≠ a := hno _ (by simp) r v rfl
        show a ∈ s.filter (fun rv => rv ≠ (r, v))
        refine List.mem_filter.mpr ⟨ha, ?_⟩
        simp only [decide_eq_true_eq]
        exact fun h => hne (h ▸ rfl)
      | zoneRead => exact ha
      | brokerRead => exact ha
      | changeRecords u => exact ha
    · intro e' he' r v hrv
      exact hno e' (List.mem_cons_of_mem _ he') r v hrv

/-- Calls that never disassociate anything keep the association state
nonempty. -/
theorem foldl_applyDrEvent_ne_nil (s : List (String × String)) (hs : s ≠ []) :
    ∀ evs : List DrEvent,
      (∀ e ∈ evs, ∀ r v, e ≠ DrEvent.disassociate r v) →
      evs.foldl applyDrEvent s ≠ [] := by
  intro evs
  induction evs generalizing s with
  | nil => intro _; simpa using hs
  | cons e rest ih =>
    intro hno
    rw [List.foldl_cons]
    have hs' : applyDrEvent s e ≠ [] := by
      cases e with
      | associate r v =>
        show (if (r, v) ∈ s then s else s ++ [(r, v)]) ≠ []
        by_cases hin : (r, v) ∈ s
        · rw [if_pos hin]; exact hs
        · rw [if_neg hin]; simp
      | disassociate r v => exact absurd rfl (hno _ (by simp) r v)
      | zoneRead => exact hs
      | brokerRead => exact hs
      | changeRecords u => exact hs
    exact ih (applyDrEvent s e) hs' (fun e' he' => hno e' (List.mem_cons_of_mem _ he'))

/-- For a trace without disassociate events, both parts of the
attach-before-detach property hold vacuously or by preservation. -/
theorem dr_switch_safe_short (vpcs : List (String × String)) (hne : vpcs ≠ [])
    (tr : List DrEvent) (htr : ∀ e ∈ tr, ∀ r v, e ≠ DrEvent.disassociate r v) :
    (∀ k, assocStateAfter vpcs (tr.take k) ≠ [])
      ∧ (∀ (i : Nat) (r v : String), tr[i]? = some (DrEvent.disassociate r v) →
          ∃ j : Nat, j < i ∧ ∃ ar av, tr[j]? = some (DrEvent.associate ar av)) := by
  constructor
  · intro k
    exact foldl_applyDrEvent_ne_nil vpcs hne (tr.take k)
      (fun e he => htr e (List.take_subset k tr he))
  · intro i r v hi
    have hmem : DrEvent.disassociate r v ∈ tr := List.getElem?_mem hi
    exact absurd rfl (htr _ hmem r v)

/-- For the full switch trace — zone read, broker read, attach, then a
tail of detaches (each avoiding the attached pair) and record changes —
the zone always keeps at least one association and every disassociate is
preceded by the associate at position 2. -/
theorem dr_switch_safe_core (vpcs : List (String × String)) (hne : vpcs ≠ [])
    (ar av : String) (rest : List DrEvent)
    (hrest : ∀ e ∈ rest, ∀ r v, e = DrEvent.disassociate r v → (r, v) ≠ (ar, av)) :
    (∀ k, assocStateAfter vpcs
        ((DrEvent.zoneRead :: DrEvent.brokerRead :: DrEvent.associate ar av :: rest).take k)
        ≠ [])
      ∧ (∀ (i : Nat) (r v : String),
          (DrEvent.zoneRead :: DrEvent.brokerRead :: DrEvent.associate ar av :: rest)[i]?
            = some (DrEvent.disassociate r v) →
          ∃ j : Nat, j < i ∧ ∃ ar' av',
            (DrEvent.zoneRead :: DrEvent.brokerRead :: DrEvent.associate ar av :: rest)[j]?
              = some (DrEvent.associate ar' av')) := by
  constructor
  · intro k
    match k with
    | 0 => simpa [assocStateAfter] using hne
    | 1 => simpa [assocStateAfter, applyDrEvent] using hne
    | 2 => simpa [assocStateAfter, applyDrEvent] using hne
    | m + 3 =>
      simp only [List.take_succ_cons, assocStateAfter, List.foldl_cons]
      have hmem : (ar, av) ∈ applyDrEvent (applyDrEvent (applyDrEvent vpcs .zoneRead)
          .brokerRead) (.associate ar av) := by
        show (ar, av) ∈ (if (ar, av) ∈ vpcs then vpcs else vpcs ++ [(ar, av)])
        by_cases hin : (ar, av) ∈ vpcs
        · rw [if_pos hin]; exact hin
        · rw [if_neg hin]; exact List.mem_append_right _ (by simp)
      exact List.ne_nil_of_mem (mem_foldl_applyDrEvent (ar, av) (rest.take m) _ hmem
        (fun e he r v hrv => hrest e (List.take_subset m rest he) r v hrv))
  · intro i r v hi
    match i, hi with
    | 0, hi => simp at hi
    | 1, hi => simp at hi
    | 2, hi => simp at hi
    | m + 3, hi => exact ⟨2, by omega, ar, av, by simp⟩

/-- After a successful (or benign-conflict) attach, the trace is the
attach preceded by the two reads and followed by a tail whose
disassociates all avoid the attached pair. -/
theorem drAfterAttach_trace (w : DrWorld)
    (active_region active_cluster_name active_vpc_id zn : String) (activate_dr : Bool)
    (snapshotVPCs : List (String × String)) (broker_addresses : List String) :
    ∃ rest,
      (drAfterAttach w active_region active_cluster_name active_vpc_id zn activate_dr
          snapshotVPCs broker_addresses).2
        = DrEvent.zoneRead :: DrEvent.brokerRead
            :: DrEvent.associate active_region active_vpc_id :: rest
      ∧ ∀ e ∈ rest, ∀ r v, e = DrEvent.disassociate r v →
          (r, v) ≠ (active_region, active_vpc_id) := by
  unfold drAfterAttach
  cases hdl : drDetachLoop w active_region active_vpc_id snapshotVPCs with
  | mk o evs =>
    have hprop : ∀ e ∈ evs, ∀ r v, e = DrEvent.disassociate r v →
        (r, v) ≠ (active_region, active_vpc_id) := by
      intro e he r v hrv
      have hevs : evs = (drDetachLoop w active_region active_vpc_id snapshotVPCs).2 := by
        rw [hdl]
      obtain ⟨r', v', he', hp'⟩ :=
        drDetachLoop_events w active_region active_vpc_id snapshotVPCs e (hevs ▸ he)
      rw [he'] at hrv
      injection hrv with h1 h2
      subst h1; subst h2
      exact hp'
    cases o with
    | some err => exact ⟨evs, rfl, hprop⟩
    | none =>
      cases hco : w.changeOutcome with
      | error e =>
        refine ⟨evs ++ [DrEvent.changeRecords (drChanges zn broker_addresses)], rfl, ?_⟩
        intro e' he' r v hrv
        rcases List.mem_append.mp he' with h | h
        · exact hprop e' h r v hrv
        · simp only [List.mem_singleton] at h
          subst h
          exact absurd hrv (by simp)
      | ok cid =>
        refine ⟨evs ++ [DrEvent.changeRecords (drChanges zn broker_addresses)], rfl, ?_⟩
        intro e' he' r v hrv
        rcases List.mem_append.mp he' with h | h
        · exact hprop e' h r v hrv
        · simp only [List.mem_singleton] at h
          subst h
          exact absurd hrv (by simp)

/-- The attach stage either aborts after the two reads or proceeds to
the full attach-then-detach trace. -/
theorem drAttach_trace (w : DrWorld)
    (active_region active_cluster_name active_vpc_id zn : String) (activate_dr : Bool)
    (snapshotVPCs : List (String × String)) (broker_addresses : List String) :
    (drAttach w active_region active_cluster_name active_vpc_id zn activate_dr
        snapshotVPCs broker_addresses).2 = [DrEvent.zoneRead, DrEvent.brokerRead]
      ∨ ∃ rest,
          (drAttach w active_region active_cluster_name active_vpc_id zn activate_dr
              snapshotVPCs broker_addresses).2
            = DrEvent.zoneRead :: DrEvent.brokerRead
                :: DrEvent.associate active_region active_vpc_id :: rest
          ∧ ∀ e ∈ rest, ∀ r v, e = DrEvent.disassociate r v →
              (r, v) ≠ (active_region, active_vpc_id) := by
  unfold drAttach
  cases hao : w.associateOutcome with
  | failure m => left; rfl
  | ok =>
    right
    exact drAfterAttach_trace w active_region active_cluster_name active_vpc_id zn
      activate_dr snapshotVPCs broker_addresses
  | conflict =>
    right
    exact drAfterAttach_trace w active_region active_cluster_name active_vpc_id zn
      activate_dr snapshotVPCs broker_addresses

/-- Every trace of the switch body is a lone zone read, the two reads,
or the full attach-then-detach shape. -/
theorem perform_dr_switch_core_trace_shape (w : DrWorld)
    (active_region active_cluster_name active_vpc_id zn : String) (activate_dr : Bool) :
    (perform_dr_switch_core w active_region active_cluster_name active_vpc_id zn
          activate_dr).2 = [DrEvent.zoneRead]
      ∨ (perform_dr_switch_core w active_region active_cluster_name active_vpc_id zn
          activate_dr).2 = [DrEvent.zoneRead, DrEvent.brokerRead]
      ∨ ∃ rest,
          (perform_dr_switch_core w active_region active_cluster_name active_vpc_id zn
            activate_dr).2
            = DrEvent.zoneRead :: DrEvent.brokerRead
                :: DrEvent.associate active_region active_vpc_id :: rest
          ∧ ∀ e ∈ rest, ∀ r v, e = DrEvent.disassociate r v →
              (r, v) ≠ (active_region, active_vpc_id) := by
  unfold perform_dr_switch_core
  cases hz : w.zoneLookup with
  | none => left; rfl
  | some zi =>
    cases hb : w.brokerLookup with
    | error e => right; left; rfl
    | ok addrs =>
      rcases drAttach_trace w active_region active_cluster_name active_vpc_id zn
          activate_dr zi.2 addrs with h | ⟨rest, heq, hprop⟩
      · right; left; exact h
      · right; right; exact ⟨rest, heq, hprop⟩

/-- When both VPCs resolve, the switch is its core body at the active
region, cluster, VPC and dot-terminated zone name. -/
theorem perform_dr_switch_eq_core (w : DrWorld)
    (primary_region primary_cluster_name dr_region dr_cluster_name zone_name : String)
    (primary_vpc_id dr_vpc_id : Option String) (activate_dr : Bool)
    (pvpc dvpc : String)
    (hp : resolveVpcParam primary_vpc_id w.primaryVpcLookup = .ok pvpc)
    (hd : resolveVpcParam dr_vpc_id w.drVpcLookup = .ok dvpc) :
    perform_dr_switch w primary_region primary_cluster_name dr_region dr_cluster_name
        zone_name primary_vpc_id dr_vpc_id activate_dr
      = perform_dr_switch_core w
          (if activate_dr then dr_region else primary_region)
          (if activate_dr then dr_cluster_name else primary_cluster_name)
          (if activate_dr then dvpc else pvpc)
          (if endsWithDot zone_name then zone_name else zone_name ++ ".")
          activate_dr := by
  unfold perform_dr_switch
  rw [hp, hd]

/-- C3: in every invocation of `perform_dr_switch`, the attach of the
newly active association is issued before any disassociate call (every
disassociate in the call trace is preceded by an associate), so starting
from any nonempty association set the zone holds at least one
association after every prefix of the trace — never zero. -/
theorem dr_switch_attach_before_detach (w : DrWorld)
    (primary_region primary_cluster_name dr_region dr_cluster_name zone_name : String)
    (primary_vpc_id dr_vpc_id : Option String) (activate_dr : Bool)
    (init : List (String × String)) (hne : init ≠ []) :
    (∀ k, assocStateAfter init
        (((perform_dr_switch w primary_region primary_cluster_name dr_region
          dr_cluster_name zone_name primary_vpc_id dr_vpc_id activate_dr).2).take k) ≠ [])
      ∧ (∀ (i : Nat) (r v : String),
          ((perform_dr_switch w primary_region primary_cluster_name dr_region
            dr_cluster_name zone_name primary_vpc_id dr_vpc_id activate_dr).2)[i]?
            = some (DrEvent.disassociate r v) →
          ∃ j : Nat, j < i ∧ ∃ ar av,
            ((perform_dr_switch w primary_region primary_cluster_name dr_region
              dr_cluster_name zone_name primary_vpc_id dr_vpc_id activate_dr).2)[j]?
              = some (DrEvent.associate ar av)) := by
  cases hp : resolveVpcParam primary_vpc_id w.primaryVpcLookup with
  | error e =>
    have htr : (perform_dr_switch w primary_region primary_cluster_name dr_region
        dr_cluster_name zone_name primary_vpc_id dr_vpc_id activate_dr).2 = [] := by
      unfold perform_dr_switch
      rw [hp]
    rw [htr]
    exact dr_switch_safe_short init hne [] (by simp)
  | ok pvpc =>
    cases hd : resolveVpcParam dr_vpc_id w.drVpcLookup with
    | error e =>
      have htr : (perform_dr_switch w primary_region primary_cluster_name dr_region
          dr_cluster_name zone_name primary_vpc_id dr_vpc_id activate_dr).2 = [] := by
        unfold perform_dr_switch
        rw [hp, hd]
      rw [htr]
      exact dr_switch_safe_short init hne [] (by simp)
    | ok dvpc =>
      rw [perform_dr_switch_eq_core w primary_region primary_cluster_name dr_region
        dr_cluster_name zone_name primary_vpc_id dr_vpc_id activate_dr pvpc dvpc hp hd]
      rcases perform_dr_switch_core_trace_shape w
          (if activate_dr then dr_region else primary_region)
          (if activate_dr then dr_cluster_name else primary_cluster_name)
          (if activate_dr then dvpc else pvpc)
          (if endsWithDot zone_name then zone_name else zone_name ++ ".")
          activate_dr with h | h | ⟨rest, heq, hprop⟩
      · rw [h]
        exact dr_switch_safe_short init hne [DrEvent.zoneRead]
          (by intro e he r v; simp only [List.mem_singleton] at he; subst he; simp)
      · rw [h]
        exact dr_switch_safe_short init hne [DrEvent.zoneRead, DrEvent.brokerRead]
          (by intro e he r v
              simp only [List.mem_cons, List.not_mem_nil, or_false] at he
              rcases he with rfl | rfl <;> simp)
      · rw [heq]
        exact dr_switch_safe_core init hne _ _ rest hprop

/-- C3 witness: the theorem at the concrete world `drWorld0`, switching
to the DR site, starting from the zone's single primary association. -/
theorem dr_switch_attach_before_detach_witness :
    (∀ k, assocStateAfter [("us-east-1", "vpc-1")]
        (((perform_dr_switch drWorld0 "us-east-1" "msk-primary" "us-west-2" "msk-dr"
          "kafka.example.com" none none true).2).take k) ≠ [])
      ∧ (∀ (i : Nat) (r v : String),
          ((perform_dr_switch drWorld0 "us-east-1" "msk-primary" "us-west-2" "msk-dr"
            "kafka.example.com" none none true).2)[i]?
            = some (DrEvent.disassociate r v) →
          ∃ j : Nat, j < i ∧ ∃ ar av,
            ((perform_dr_switch drWorld0 "us-east-1" "msk-primary" "us-west-2" "msk-dr"
              "kafka.example.com" none none true).2)[j]?
              = some (DrEvent.associate ar av)) :=
  dr_switch_attach_before_detach drWorld0 "us-east-1" "msk-primary" "us-west-2" "msk-dr"
    "kafka.example.com" none none true [("us-east-1", "vpc-1")] (by decide)

/-- C2 amended: the set of associations used to decide which
attachments to detach is the `VPCs` list carried by the zone observation
made at the start of the switch — before the attach is issued — and no
zone re-read happens after the attach: on the path reaching detachment
the full trace is the single zone read, the broker read, the attach, the
disassociates computed by filtering that pre-attach snapshot, and the
batched record change. -/
theorem dr_switch_detach_set_from_preattach_observation (w : DrWorld)
    (primary_region primary_cluster_name dr_region dr_cluster_name zone_name : String)
    (primary_vpc_id dr_vpc_id : Option String) (activate_dr : Bool)
    (pvpc dvpc zone_id : String) (vpcs : List (String × String)) (addrs : List String)
    (hp : resolveVpcParam primary_vpc_id w.primaryVpcLookup = .ok pvpc)
    (hd : resolveVpcParam dr_vpc_id w.drVpcLookup = .ok dvpc)
    (hz : w.zoneLookup = some (zone_id, vpcs))
    (hb : w.brokerLookup = .ok addrs)
    (ha : ∀ m, w.associateOutcome ≠ AssocOutcome.failure m)
    (hds : ∀ r v, w.disassociateOutcome r v = none) :
    (perform_dr_switch w primary_region primary_cluster_name dr_region dr_cluster_name
        zone_name primary_vpc_id dr_vpc_id activate_dr).2
      = DrEvent.zoneRead :: DrEvent.brokerRead
          :: DrEvent.associate (if activate_dr then dr_region else primary_region)
              (if activate_dr then dvpc else pvpc)
          :: ((vpcs.filter (fun rv =>
                decide (rv.2 ≠ (if activate_dr then dvpc else pvpc)
                  ∨ rv.1 ≠ (if activate_dr then dr_region else primary_region)))).map
              (fun rv => DrEvent.disassociate rv.1 rv.2))
          ++ [DrEvent.changeRecords (drChanges
              (if endsWithDot zone_name then zone_name else zone_name ++ ".") addrs)] := by
  rw [perform_dr_switch_eq_core w primary_region primary_cluster_name dr_region
    dr_cluster_name zone_name primary_vpc_id dr_vpc_id activate_dr pvpc dvpc hp hd]
  have h2 : perform_dr_switch_core w
      (if activate_dr then dr_region else primary_region)
      (if activate_dr then dr_cluster_name else primary_cluster_name)
      (if activate_dr then dvpc else pvpc)
      (if endsWithDot zone_name then zone_name else zone_name ++ ".") activate_dr
      = drAttach w
          (if activate_dr then dr_region else primary_region)
          (if activate_dr then dr_cluster_name else primary_cluster_name)
          (if activate_dr then dvpc else pvpc)
          (if endsWithDot zone_name then zone_name else zone_name ++ ".") activate_dr
          vpcs addrs := by
    unfold perform_dr_switch_core
    rw [hz, hb]
  have h3 : drAttach w
      (if activate_dr then dr_region else primary_region)
      (if activate_dr then dr_cluster_name else primary_cluster_name)
      (if activate_dr then dvpc else pvpc)
      (if endsWithDot zone_name then zone_name else zone_name ++ ".") activate_dr
      vpcs addrs
      = drAfterAttach w
          (if activate_dr then dr_region else primary_region)
          (if activate_dr then dr_cluster_name else primary_cluster_name)
          (if activate_dr then dvpc else pvpc)
          (if endsWithDot zone_name then zone_name else zone_name ++ ".") activate_dr
          vpcs addrs := by
    unfold drAttach
    cases hao : w.associateOutcome with
    | failure m => exact absurd hao (ha m)
    | ok => rfl
    | conflict => rfl
  rw [h2, h3]
  unfold drAfterAttach
  rw [drDetachLoop_all_ok w _ _ hds vpcs]
  cases hco : w.changeOutcome with
  | error e => simp
  | ok cid => simp

/-- C2 counterexample: in a concrete switch invocation the only zone
read of the whole trace happens first, before the attach — the events
after the attach contain no zone read — so the detach decision cannot
come from a zone observation taken after the attach was issued, while a
detach does occur. -/
theorem dr_switch_no_read_after_attach_cx :
    (perform_dr_switch drWorld0 "us-east-1" "msk-primary" "us-west-2" "msk-dr"
        "kafka.example.com" none none true).2
      = [DrEvent.zoneRead, DrEvent.brokerRead,
         DrEvent.associate "us-west-2" "vpc-2",
         DrEvent.disassociate "us-east-1" "vpc-1",
         DrEvent.changeRecords
           [("broker1.kafka.example.com.", "b-1.msk.amazonaws.com"),
            ("broker2.kafka.example.com.", "b-2.msk.amazonaws.com")]]
      ∧ (((perform_dr_switch drWorld0 "us-east-1" "msk-primary" "us-west-2" "msk-dr"
          "kafka.example.com" none none true).2).drop 3).all
            (fun e => decide (e ≠ DrEvent.zoneRead)) = true
      ∧ DrEvent.disassociate "us-east-1" "vpc-1"
          ∈ (perform_dr_switch drWorld0 "us-east-1" "msk-primary" "us-west-2" "msk-dr"
              "kafka.example.com" none none true).2 := by
  refine ⟨?_, ?_, ?_⟩ <;> decide

/-- C2 witness: the amended theorem at the concrete world `drWorld0`. -/
theorem dr_switch_detach_set_from_preattach_observation_witness :
    (perform_dr_switch drWorld0 "us-east-1" "msk-primary" "us-west-2" "msk-dr"
        "kafka.example.com" none none true).2
      = DrEvent.zoneRead :: DrEvent.brokerRead
          :: DrEvent.associate (if true then "us-west-2" else "us-east-1")
              (if true then "vpc-2" else "vpc-1")
          :: (([("us-east-1", "vpc-1")].filter (fun rv =>
                decide (rv.2 ≠ (if true then "vpc-2" else "vpc-1")
                  ∨ rv.1 ≠ (if true then "us-west-2" else "us-east-1")))).map
              (fun rv => DrEvent.disassociate rv.1 rv.2))
          ++ [DrEvent.changeRecords (drChanges
              (if endsWithDot "kafka.example.com" then "kafka.example.com"
                else "kafka.example.com" ++ ".")
              ["b-1.msk.amazonaws.com:9092", "b-2.msk.amazonaws.com:9092"])] :=
  dr_switch_detach_set_from_preattach_observation drWorld0 "us-east-1" "msk-primary"
    "us-west-2" "msk-dr" "kafka.example.com" none none true "vpc-1" "vpc-2" "Z123"
    [("us-east-1", "vpc-1")] ["b-1.msk.amazonaws.com:9092", "b-2.msk.amazonaws.com:9092"]
    rfl rfl rfl rfl (by intro m h; exact AssocOutcome.noConfusion h) (fun r v => rfl)
